import Mathlib

/-!
Verification of the Related-List data controller (`relatedListLWR.js`).

The development shallowly embeds the component's client-side logic:
JavaScript values are modelled by `JSVal`, records by association lists,
and each method of the component by a Lean function translated from the
source.  Remote calls (Apex fetches, delete, permission checks), the
browser environment (locale date formatting, `window.location` URL
building) and toast dispatch are external collaborators: their outcomes
are passed in as explicit parameters, exactly where the source awaits
them.  JavaScript numbers are modelled by `Int` (every numeric value the
component manipulates in the verified paths is integral).
-/

set_option maxRecDepth 100000

namespace RelatedList

mutual
/-- A JavaScript value as far as the component observes it: `null` (and
`undefined`, which the component's code paths treat interchangeably via
loose comparison and truthiness), booleans, numbers, strings, objects
and arrays. -/
inductive JSVal where
  | vnull
  | vbool (b : Bool)
  | vnum (n : Int)
  | vstr (s : String)
  | vobj (fields : JSFields)
  | varr (items : JSItems)
deriving DecidableEq, Repr

/-- Field list of a nested JavaScript object (property order preserved). -/
inductive JSFields where
  | nil
  | cons (key : String) (val : JSVal) (rest : JSFields)
deriving DecidableEq, Repr

/-- Element list of a nested JavaScript array. -/
inductive JSItems where
  | nil
  | cons (val : JSVal) (rest : JSItems)
deriving DecidableEq, Repr
end

/-- Lookup in a nested object's field list (first binding wins, `none`
models `undefined`). -/
def JSFields.lookup : JSFields → String → Option JSVal
  | .nil, _ => none
  | .cons k v rest, key => if k = key then some v else rest.lookup key

/-- Build a nested array value from a list of values. -/
def JSItems.ofList : List JSVal → JSItems
  | [] => .nil
  | v :: vs => .cons v (ofList vs)

/-- A record is a mapping from field name to value, as delivered by the
remote fetches (property order preserved, first binding wins). -/
abbrev Record := List (String × JSVal)

/-- JavaScript property access: first binding for the key, `none` when the
property is absent (`undefined`). -/
def getProp (r : Record) (key : String) : Option JSVal :=
  match r with
  | [] => none
  | (k, v) :: rest => if k = key then some v else getProp rest key

/-- Property access defaulting to `null`-like absence collapsed to `vnull`
(used where the source only tests truthiness or reads the value). -/
def jsGetD (r : Record) (key : String) : JSVal :=
  (getProp r key).getD .vnull

/-- Property update: replace the first binding, or append a new one
(models `record[key] = value`). -/
def setProp (r : Record) (key : String) (v : JSVal) : Record :=
  match r with
  | [] => [(key, v)]
  | (k, w) :: rest => if k = key then (k, v) :: rest else (k, w) :: setProp rest key v

/-- JavaScript truthiness. -/
def jsTruthy : JSVal → Bool
  | .vnull => false
  | .vbool b => b
  | .vnum n => n ≠ 0
  | .vstr s => s ≠ ""
  | .vobj _ => true
  | .varr _ => true

/-- `String(value)` coercion for the values the component manipulates. -/
def jsToString : JSVal → String
  | .vnull => "null"
  | .vbool b => if b then "true" else "false"
  | .vnum n => toString n
  | .vstr s => s
  | .vobj _ => "[object Object]"
  | .varr _ => ""

/-- Character-list implementations of the string operations the embedding
needs (`contains`, `split`, `trim`, `toUpper`, `intercalate`): the library
versions are defined by well-founded recursion on byte positions, which
does not evaluate inside the kernel, so concrete runs of the model could
not be checked with them. -/
def strContainsChar (s : String) (c : Char) : Bool :=
  s.data.any (fun x => x == c)

/-- `split` on a single-character separator (the component only splits on
`.` and `,`). -/
def splitOnCharAux (c : Char) : List Char → List Char → List String
  | [], acc => [String.mk acc.reverse]
  | x :: xs, acc =>
    if x == c then String.mk acc.reverse :: splitOnCharAux c xs []
    else splitOnCharAux c xs (x :: acc)

/-- `String.split('.')`-style splitting on one character. -/
def splitOnChar (c : Char) (s : String) : List String :=
  splitOnCharAux c s.data []

/-- Whitespace trim. -/
def strTrim (s : String) : String :=
  String.mk (((s.data.dropWhile Char.isWhitespace).reverse.dropWhile
    Char.isWhitespace).reverse)

/-- Uppercasing. -/
def strToUpper (s : String) : String := String.mk (s.data.map Char.toUpper)

/-- Join with a separator. -/
def strIntercalate (sep : String) : List String → String
  | [] => ""
  | [x] => x
  | x :: xs => x ++ sep ++ strIntercalate sep xs

/-- `ToNumber` on a string: trimmed empty string is `0`, an optional sign
followed by digits is the corresponding integer, anything else is `NaN`
(`none`).  (Fractional numerals are outside the integral value model.) -/
def strToNumber (s : String) : Option Int :=
  let t := strTrim s
  if t = "" then some 0
  else
    let (neg, digits) :=
      match t.data with
      | '-' :: rest => (true, rest)
      | '+' :: rest => (false, rest)
      | l => (false, l)
    if digits ≠ [] ∧ digits.all Char.isDigit then
      let n : Int := digits.foldl (fun acc c => acc * 10 + (c.toNat - '0'.toNat)) (0 : Int)
      some (if neg then -n else n)
    else none

/-- `ToNumber` coercion; `none` models `NaN`. -/
def jsToNumber : JSVal → Option Int
  | .vnull => some 0
  | .vbool b => some (if b then 1 else 0)
  | .vnum n => some n
  | .vstr s => strToNumber s
  | .vobj _ => none
  | .varr _ => none

/-- The JavaScript `<` relational operator on the values reaching the sort
comparator: string/string comparison is lexicographic, any other pair is
compared numerically after `ToNumber`, and a `NaN` operand makes the
comparison false. -/
def jsLt (a b : JSVal) : Bool :=
  match a, b with
  | .vstr s, .vstr t => decide (s < t)
  | _, _ =>
    match jsToNumber a, jsToNumber b with
    | some x, some y => decide (x < y)
    | _, _ => false

/-- A datatable column definition, restricted to the attributes the
component reads back (`buildColumnsFromARL`, `getFieldValue`,
`processARLRecords`, `buildCardData`).  `typeAttrLabelField` models
`typeAttributes.label.fieldName`; `isAction` marks the delete row-action
column. -/
structure Column where
  label : String := ""
  fieldName : String := ""
  ctype : String := "text"
  sortable : Bool := false
  wrapText : Bool := false
  fixedWidth : Option Int := none
  isDateTime : Bool := false
  isDate : Bool := false
  typeAttrLabelField : Option String := none
  isAction : Bool := false
deriving DecidableEq, Repr

-- ===== SORT ENGINE =====

/-- Source `getFieldValue(record, fieldName)` (uses `this.columns` for the
`recordUrl` branch): direct own-property access first; then one level of
dotted relationship traversal guarded by truthiness of both the container
and the nested value; then, for `recordUrl`, the first column's underlying
field when truthy; otherwise `null`.  The source's `try/catch` returning
`null` has no counterpart because the embedding is total. -/
def getFieldValue (cols : List Column) (record : Record) (fieldName : String) : JSVal :=
  match getProp record fieldName with
  | some v => v
  | none =>
    let dotted : Option JSVal :=
      if strContainsChar fieldName '.' then
        match splitOnChar '.' fieldName with
        | rel :: target :: _ =>
          match getProp record rel with
          | some container =>
            if jsTruthy container then
              let nested :=
                match container with
                | .vobj fs => (fs.lookup target).getD .vnull
                | _ => .vnull
              if jsTruthy nested then some nested else none
            else none
          | none => none
        | _ => none
      else none
    match dotted with
    | some v => v
    | none =>
      if fieldName = "recordUrl" ∧ cols.length > 0 then
        let firstField := (cols.headD {}).fieldName
        if firstField ≠ "" ∧ jsTruthy (jsGetD record firstField) then
          jsGetD record firstField
        else .vnull
      else .vnull

/-- The normalisation applied once per record during pre-extraction:
`if (value != null && typeof value !== 'string' && typeof value !== 'number')
value = String(value)`. -/
def normalizeSortValue (v : JSVal) : JSVal :=
  match v with
  | .vnull => v
  | .vnum _ => v
  | .vstr _ => v
  | other => .vstr (jsToString other)

/-- The comparator the source passes to `Array.prototype.sort` over the
pre-extracted values: null/null is a tie, a single null sorts first
ascending and last descending, and otherwise the JavaScript `<`/`>`
comparisons decide, with the sign flipped for descending order. -/
def sortCompare (direction : String) (aVal bVal : JSVal) : Int :=
  if aVal = .vnull ∧ bVal = .vnull then 0
  else if aVal = .vnull then (if direction = "asc" then -1 else 1)
  else if bVal = .vnull then (if direction = "asc" then 1 else -1)
  else
    let result : Int := if jsLt aVal bVal then -1 else if jsLt bVal aVal then 1 else 0
    if direction = "asc" then result else -result

/-- Stable insertion of `x` in front of the first element it precedes-or-
ties with. -/
def sortInsert (le : α → α → Bool) (x : α) : List α → List α
  | [] => [x]
  | y :: ys => if le x y then x :: y :: ys else y :: sortInsert le x ys

/-- A stable sort modelling `Array.prototype.sort` (stable per the
ECMAScript specification; for the consistent comparators the component
uses, every stable sort computes the same reordering). -/
def stableSort (le : α → α → Bool) : List α → List α
  | [] => []
  | x :: xs => sortInsert le x (stableSort le xs)

/-- Source `sortData(fieldName, direction)`: pre-extract and normalise the
sort key of every record once into `(record, value)` pairs, sort the pairs
by the comparator over the pre-extracted values only, and project the
records back out. -/
def sortData (cols : List Column) (records : List Record)
    (fieldName direction : String) : List Record :=
  let recordsWithValues :=
    records.map (fun r => (r, normalizeSortValue (getFieldValue cols r fieldName)))
  let sorted :=
    stableSort (fun a b => sortCompare direction a.2 b.2 ≤ 0) recordsWithValues
  sorted.map (fun p => p.1)

/-- Instrumented pre-extraction pass: returns the `(record, key)` pairs
together with the number of `getFieldValue` invocations performed (one per
record, the key normalised at extraction time). -/
def extractKeysCounted (cols : List Column) (fieldName : String) :
    List Record → List (Record × JSVal) × Nat
  | [] => ([], 0)
  | r :: rs =>
    let rest := extractKeysCounted cols fieldName rs
    ((r, normalizeSortValue (getFieldValue cols r fieldName)) :: rest.1, rest.2 + 1)

/-- `sortData` with the extraction spy of the spec's test: the second
component counts field-value extractions; the comparison phase reads only
the pre-extracted keys and performs no extraction. -/
def sortDataCounted (cols : List Column) (records : List Record)
    (fieldName direction : String) : List Record × Nat :=
  let ex := extractKeysCounted cols fieldName records
  ((stableSort (fun a b => sortCompare direction a.2 b.2 ≤ 0) ex.1).map (fun p => p.1),
   ex.2)

-- ===== CONTROLLER STATE =====

/-- An error payload from a rejected remote call:
`error.body?.message` and `error.message`, each possibly absent. -/
structure ErrorPayload where
  bodyMessage : Option String := none
  message : Option String := none
deriving DecidableEq, Repr

/-- Truthiness of an optional string property (absent and empty both
falsy, as under `||`). -/
def truthyOptStr : Option String → Bool
  | none => false
  | some s => s ≠ ""

/-- `error.body?.message || error.message || 'Unknown error occurred'`. -/
def extractErrorMessage (e : ErrorPayload) : String :=
  if truthyOptStr e.bodyMessage then e.bodyMessage.getD ""
  else if truthyOptStr e.message then e.message.getD ""
  else "Unknown error occurred"

/-- A dispatched toast: title, message, variant. -/
abbrev Toast := String × String × String

/-- One entry of `_cachedRelationshipFieldMap`: a dotted key of the sample
record split into its relationship and target parts, with the flattened
synthetic key. -/
structure FlattenMapping where
  originalKey : String
  relationshipName : String
  fieldName : String
  flattenedFieldName : String
deriving DecidableEq, Repr

/-- The mutable fields of the component that the verified operations read
and write.  `currentOffset` is a `Nat`: the source only ever assigns it
`0`, adds the page size, or takes `Math.max(0, …)`. -/
structure CState where
  allRecords : List Record := []
  displayedRecords : List Record := []
  columns : List Column := []
  isLoading : Bool := false
  isLoadingMore : Bool := false
  error : Option String := none
  hasData : Bool := false
  hasMoreRecords : Bool := false
  serverHasMoreRecords : Bool := false
  currentOffset : Nat := 0
  sortedBy : String := ""
  sortDirection : String := "asc"
  lastDataSignature : String := ""
  lastUISignature : String := ""
  isInitialized : Bool := false
  isRefreshing : Bool := false
  canDeleteRecords : Bool := false
  cachedRelationshipFieldMap : Option (List FlattenMapping) := none
  toasts : List Toast := []
deriving DecidableEq, Repr

/-- Source `clearSort()`. -/
def clearSort (s : CState) : CState :=
  { s with sortedBy := "", sortDirection := "asc" }

/-- Source `clearData()`: reset records, columns, flags, offset, sort and
the cached relationship-field map.  (`error` is not cleared here.) -/
def clearData (s : CState) : CState :=
  clearSort { s with
    allRecords := [], displayedRecords := [], columns := [],
    hasData := false, hasMoreRecords := false, serverHasMoreRecords := false,
    currentOffset := 0, cachedRelationshipFieldMap := none }

-- ===== PAGINATION MANAGER =====

/-- Source `updateDisplayedRecords()`: show the prefix of `allRecords` up
to `currentOffset + pageSize`; `hasMoreRecords` is true when more fetched
records remain unshown, or all are shown but the server reported more. -/
def updateDisplayedRecords (pageSize : Nat) (s : CState) : CState :=
  let endIndex := s.currentOffset + pageSize
  let displayed := s.allRecords.take endIndex
  let hasMoreClient := endIndex < s.allRecords.length
  { s with
    displayedRecords := displayed
    hasData := displayed.length > 0
    hasMoreRecords :=
      if hasMoreClient then true
      else if s.serverHasMoreRecords then true
      else false }

/-- Source `handleViewMore()`: advance the offset by the page size and
recompute the displayed slice (all records are already client-side). -/
def handleViewMore (pageSize : Nat) (s : CState) : CState :=
  let s1 := { s with isLoadingMore := true }
  let s2 := updateDisplayedRecords pageSize
    { s1 with currentOffset := s1.currentOffset + pageSize }
  { s2 with isLoadingMore := false }

/-- Source `handleViewAll()`: with a configured view-all URL the component
navigates externally (no record state changes); otherwise, when any
records are held, it shows them all and unconditionally sets
`hasMoreRecords = false`. -/
def handleViewAll (viewAllUrl : String) (s : CState) : CState :=
  if viewAllUrl ≠ "" ∧ strTrim viewAllUrl ≠ "" then s
  else if s.allRecords.length > 0 then
    { s with displayedRecords := s.allRecords, hasMoreRecords := false }
  else s

/-- Source `handleSort(event)`: record the sort field and direction, sort
`allRecords`, then restore an offset that keeps the displayed count:
`currentOffset = Math.max(0, currentlyDisplayedCount - pageSize)`. -/
def handleSort (pageSize : Nat) (s : CState) (fieldName direction : String) : CState :=
  let s1 := { s with sortedBy := fieldName, sortDirection := direction }
  let currentlyDisplayedCount := s1.displayedRecords.length
  let s2 := { s1 with allRecords := sortData s1.columns s1.allRecords fieldName direction }
  let s3 := { s2 with currentOffset := currentlyDisplayedCount - pageSize }
  updateDisplayedRecords pageSize s3

-- ===== DELETE =====

/-- Source `handleDeleteRecord(recordId)`: a falsy id only toasts; the
remote delete outcome is the parameter.  On success the records whose `Id`
strictly equals the argument are filtered out and the displayed slice is
recomputed; on failure the record state is untouched and a transient
error toast is dispatched. -/
def handleDeleteRecord (pageSize : Nat) (recordId : JSVal)
    (outcome : Except ErrorPayload Unit) (s : CState) : CState :=
  if ¬ jsTruthy recordId then
    { s with toasts := s.toasts ++ [("Error", "No record ID provided", "error")] }
  else
    match outcome with
    | .ok _ =>
      let s1 := { s with
        allRecords := s.allRecords.filter (fun r => ¬ getProp r "Id" = some recordId) }
      let s2 := updateDisplayedRecords pageSize s1
      { s2 with toasts := s2.toasts ++ [("Success", "Record deleted successfully", "success")] }
    | .error e =>
      { s with toasts := s.toasts ++
          [("Error", "Failed to delete record: " ++ extractErrorMessage e, "error")] }

-- ===== CONFIGURATION CACHE =====

/-- The memo cell behind the `configObj` getter:
`_cachedConfigObj` (initially `null`) and `_lastConfigString`. -/
structure ConfigCacheState where
  cachedConfigObj : Option Record := none
  lastConfigString : String := ""
deriving DecidableEq, Repr

/-- Source `configObj` getter: reparse only when the raw string differs
from `_lastConfigString`; a successful parse stores the object and the raw
string, a failed parse stores the empty object but leaves
`_lastConfigString` unchanged.  `JSON.parse` is the external parameter
`parseJson`; the third component reports whether the parser was invoked
on this call. -/
def configObjStep (parseJson : String → Option Record) (raw : String)
    (st : ConfigCacheState) : Option Record × ConfigCacheState × Bool :=
  if raw ≠ st.lastConfigString then
    match parseJson raw with
    | some obj => (some obj, { cachedConfigObj := some obj, lastConfigString := raw }, true)
    | none => (some [], { st with cachedConfigObj := some [] }, true)
  else (st.cachedConfigObj, st, false)

-- ===== CONFIGURATION SNAPSHOT =====

/-- The component's configuration as observed through its defaulted
getters (`configObj.x || default`), together with the resolved record id
and detected object type.  The empty string models `null`/absent for
`currentRecordId` and `detectedObjectType`, matching the getters that
yield `null` for them. -/
structure Cfg where
  relatedListType : String := "standard"
  currentRecordId : String := ""
  detectedObjectType : String := ""
  relatedListName : String := ""
  relationshipField : String := ""
  enabledFields : String := ""
  fieldNames : String := ""
  numberOfSlots : String := "None"
  iconType : String := "slds"
  relatedListIcon : String := ""
  relatedListLabelRaw : String := ""
  showViewMore : Bool := false
  showViewAll : Bool := false
  viewAllUrl : String := ""
  enableRecordLinking : Bool := false
  recordPageUrl : String := ""
  defaultColumnWidth : Option Int := none
  hideCheckboxColumn : Bool := true
  showRowNumberColumn : Bool := false
  resizeColumnDisabled : Bool := false
  columnSortingDisabled : Bool := false
  enableInfiniteLoading : Bool := false
  displayMode : String := "table"
  pageSize : Nat := 6
  maxRecordsToFetch : Nat := 50
  enableRecordDeletion : Bool := false
deriving DecidableEq, Repr

/-- Source `hasValidConfiguration`: articles/emails and files modes need a
record id; ARL mode needs related-list name, record id and detected
object type. -/
def hasValidConfiguration (cfg : Cfg) : Bool :=
  if cfg.relatedListType = "articles" ∨ cfg.relatedListType = "emails" then
    cfg.currentRecordId ≠ ""
  else if cfg.relatedListType = "files" then
    cfg.currentRecordId ≠ ""
  else
    cfg.relatedListName ≠ "" ∧ cfg.currentRecordId ≠ "" ∧ cfg.detectedObjectType ≠ ""

-- ===== SIGNATURE-BASED CHANGE DETECTION =====

/-- `JSON.stringify` of a string value (the component's configuration
values contain no characters that require JSON escapes). -/
def jsonQuote (s : String) : String := "\"" ++ s ++ "\""

/-- `JSON.stringify` of a string-or-null value under the empty-string-as-
null convention. -/
def jsonNullable (s : String) : String := if s = "" then "null" else jsonQuote s

/-- `JSON.stringify` of a boolean. -/
def jsonOfBool (b : Bool) : String := if b then "true" else "false"

/-- `JSON.stringify` of the `defaultColumnWidth` value (number or null). -/
def jsonOfWidth : Option Int → String
  | none => "null"
  | some w => toString w

/-- Source `dataSignature` getter, as the pure serialization it caches:
mode-discriminated `JSON.stringify` of the data-affecting inputs.  The
`_cachedDataSignature`/`_lastSignatureInputs` memo layer is value-
transparent (the data and UI input key sets are disjoint), so the cached
value always equals this function of the current inputs. -/
def computeDataSignature (cfg : Cfg) : String :=
  if cfg.relatedListType = "articles" then
    "\x7b\"mode\":\"articles\",\"recordId\":" ++ jsonNullable cfg.currentRecordId ++ "\x7d"
  else if cfg.relatedListType = "files" then
    "\x7b\"mode\":\"files\",\"recordId\":" ++ jsonNullable cfg.currentRecordId ++ "\x7d"
  else
    "\x7b\"mode\":\"arl\",\"recordId\":" ++ jsonNullable cfg.currentRecordId ++
    ",\"relatedListName\":" ++ jsonQuote cfg.relatedListName ++
    ",\"relationshipField\":" ++ jsonQuote cfg.relationshipField ++
    ",\"enabledFields\":" ++ jsonQuote cfg.enabledFields ++
    ",\"detectedObjectType\":" ++ jsonNullable cfg.detectedObjectType ++ "\x7d"

/-- Source `relatedListLabel` getter as the pure function its memo layer
caches: the configured label (default `Related Records`) with a record
count, shown as `pageSize+` while more records exist. -/
def relatedListLabel (cfg : Cfg) (s : CState) : String :=
  let baseLabel :=
    if cfg.relatedListLabelRaw ≠ "" then cfg.relatedListLabelRaw else "Related Records"
  let recordCount := if s.hasData then s.allRecords.length else 0
  if s.hasData ∧ recordCount > 0 then
    if s.hasMoreRecords ∧ recordCount ≥ cfg.pageSize then
      baseLabel ++ " (" ++ toString cfg.pageSize ++ "+)"
    else
      baseLabel ++ " (" ++ toString recordCount ++ ")"
  else baseLabel

/-- Source `uiSignature` getter as the pure serialization it caches:
`JSON.stringify` of the display-only inputs (including the current
related-list label). -/
def computeUiSignature (cfg : Cfg) (label : String) : String :=
  "\x7b\"numberOfSlots\":" ++ jsonQuote cfg.numberOfSlots ++
  ",\"iconType\":" ++ jsonQuote cfg.iconType ++
  ",\"relatedListIcon\":" ++ jsonQuote cfg.relatedListIcon ++
  ",\"relatedListLabel\":" ++ jsonQuote label ++
  ",\"showViewMore\":" ++ jsonOfBool cfg.showViewMore ++
  ",\"showViewAll\":" ++ jsonOfBool cfg.showViewAll ++
  ",\"viewAllUrl\":" ++ jsonQuote cfg.viewAllUrl ++
  ",\"enableRecordLinking\":" ++ jsonOfBool cfg.enableRecordLinking ++
  ",\"recordPageUrl\":" ++ jsonQuote cfg.recordPageUrl ++
  ",\"fieldNames\":" ++ jsonQuote cfg.fieldNames ++
  ",\"defaultColumnWidth\":" ++ jsonOfWidth cfg.defaultColumnWidth ++
  ",\"hideCheckboxColumn\":" ++ jsonOfBool cfg.hideCheckboxColumn ++
  ",\"showRowNumberColumn\":" ++ jsonOfBool cfg.showRowNumberColumn ++
  ",\"resizeColumnDisabled\":" ++ jsonOfBool cfg.resizeColumnDisabled ++
  ",\"columnSortingDisabled\":" ++ jsonOfBool cfg.columnSortingDisabled ++
  ",\"enableInfiniteLoading\":" ++ jsonOfBool cfg.enableInfiniteLoading ++
  ",\"displayMode\":" ++ jsonQuote cfg.displayMode ++ "\x7d"

-- ===== COLUMN BUILDING AND RECORD PROCESSING (ARL MODE) =====

/-- Field metadata from the Related List API response. -/
structure FieldInfo where
  label : String := ""
  apiName : String := ""
  ftype : String := ""
deriving DecidableEq, Repr

/-- The Related List API response: `fields` is `none` when absent
(`response?.fields` falsy; an empty array is still truthy and present). -/
structure ARLResponse where
  fields : Option (List FieldInfo) := none
  records : List Record := []
  hasMoreRecords : Bool := false
deriving DecidableEq, Repr

/-- Source `customFieldNamesList`: split the configured field-name string
on commas, trim, drop empties. -/
def customFieldNamesList (fieldNames : String) : List String :=
  if fieldNames = "" ∨ strTrim fieldNames = "" then []
  else ((splitOnChar ',' fieldNames).map strTrim).filter (fun n => n.length > 0)

/-- Source `getCustomFieldLabel`: positional override by index, falling
back to the field's own label. -/
def getCustomFieldLabel (customNames : List String) (fieldLabel : String)
    (index : Nat) : String :=
  if customNames.length > index then customNames.getD index "" else fieldLabel

/-- Source `mapFieldTypeToDataTableType`. -/
def mapFieldTypeToDataTableType (fieldType : String) : String :=
  let typeMap : List (String × String) :=
    [("STRING", "text"), ("TEXTAREA", "text"), ("EMAIL", "email"),
     ("PHONE", "phone"), ("URL", "url"), ("CURRENCY", "currency"),
     ("PERCENT", "percent"), ("NUMBER", "text"), ("DOUBLE", "number"),
     ("INTEGER", "number"), ("DATE", "text"), ("DATETIME", "text"),
     ("TIME", "text"), ("BOOLEAN", "boolean"), ("PICKLIST", "text"),
     ("MULTIPICKLIST", "text"), ("REFERENCE", "text")]
  match typeMap.lookup (strToUpper fieldType) with
  | some t => t
  | none => "text"

/-- Source `getFlattenedFieldName`: `replace('.', '_')` replaces only the
first dot. -/
def getFlattenedFieldName (fieldApiName : String) : String :=
  match splitOnChar '.' fieldApiName with
  | a :: b :: rest => a ++ "_" ++ strIntercalate "." (b :: rest)
  | _ => fieldApiName

/-- Source `shouldShowDeleteAction`. -/
def shouldShowDeleteAction (cfg : Cfg) (canDeleteRecords : Bool) : Bool :=
  cfg.enableRecordDeletion ∧ canDeleteRecords ∧
  cfg.displayMode = "table" ∧ cfg.relatedListType = "standard"

/-- Source `buildColumnsFromARL(fields)`: one column per field with
custom-label override, flattened field name, date/datetime remapped to
text, optional fixed width, linking rewiring on the first column, and a
trailing delete action column when permitted. -/
def buildColumnsFromARL (cfg : Cfg) (canDeleteRecords : Bool)
    (fields : List FieldInfo) : List Column :=
  let customNames := customFieldNamesList cfg.fieldNames
  let cols := fields.mapIdx (fun index f =>
    let fieldType := mapFieldTypeToDataTableType f.ftype
    let c0 : Column := {
      label := getCustomFieldLabel customNames f.label index
      fieldName := getFlattenedFieldName f.apiName
      ctype := if f.ftype = "DATETIME" ∨ f.ftype = "DATE" then "text" else fieldType
      isDateTime := f.ftype = "DATETIME"
      isDate := f.ftype = "DATE"
      sortable := ¬ cfg.columnSortingDisabled
      wrapText := true }
    let c1 :=
      match cfg.defaultColumnWidth with
      | some w => if w > 0 then { c0 with fixedWidth := some w } else c0
      | none => c0
    if index = 0 ∧ cfg.enableRecordLinking ∧ cfg.recordPageUrl ≠ "" then
      { c1 with
        ctype := "url"
        typeAttrLabelField := some (getFlattenedFieldName f.apiName)
        fieldName := "recordUrl" }
    else c1)
  if shouldShowDeleteAction cfg canDeleteRecords then
    cols ++ [{ isAction := true, fixedWidth := some 60 }]
  else cols

/-- A knowledge article as returned by the articles fetch. -/
structure Article where
  id : String := ""
  title : String := ""
  urlName : String := ""
deriving DecidableEq, Repr

/-- Environment and remote-call outcomes consumed by one `loadData` run:
the four mode fetches, the delete-permission check, locale date
formatting, and URL building from `window.location`. -/
structure FetchEnv where
  arlResp : Except ErrorPayload ARLResponse := .error {}
  filesResp : Except ErrorPayload (List Record) := .error {}
  articlesResp : Except ErrorPayload (List Article) := .error {}
  emailsResp : Except ErrorPayload (List Record) := .error {}
  canDeleteResp : Bool := false
  fmtDate : String → String := id
  fmtDateTime : String → String := id
  buildUrlFromId : JSVal → JSVal := fun _ => .vnull
  articleUrlFor : String → String → JSVal := fun _ _ => .vnull

/-- The field a datatable column reads from a record during record
processing: `col.typeAttributes?.label?.fieldName || this.columns[0].fieldName`
for `recordUrl` columns. -/
def resolveColFieldNameARL (cols : List Column) (col : Column) : String :=
  if col.fieldName = "recordUrl" then
    match col.typeAttrLabelField with
    | some t => if t ≠ "" then t else (cols.headD {}).fieldName
    | none => (cols.headD {}).fieldName
  else col.fieldName

/-- Source `buildCardData(record)`: title from the first column's
underlying field (empty-string fallback), remaining columns as
`(key, label, value)` entries. -/
def buildCardData (cols : List Column) (record : Record) : JSVal :=
  if cols.length = 0 then
    .vobj (.cons "title" (.vstr "") (.cons "fields" (.varr .nil) .nil))
  else
    let firstCol := cols.headD {}
    let titleFieldName :=
      if firstCol.fieldName = "recordUrl" ∧ truthyOptStr firstCol.typeAttrLabelField then
        firstCol.typeAttrLabelField.getD ""
      else firstCol.fieldName
    let titleVal :=
      let v := jsGetD record titleFieldName
      if jsTruthy v then v else .vstr ""
    let items := (cols.drop 1).mapIdx (fun j col =>
      let i := j + 1
      let fieldName :=
        if col.fieldName = "recordUrl" ∧ truthyOptStr col.typeAttrLabelField then
          col.typeAttrLabelField.getD ""
        else col.fieldName
      let value :=
        let v := jsGetD record fieldName
        if jsTruthy v then v else .vstr ""
      JSVal.vobj (.cons "key" (.vstr ("field-" ++ toString i))
        (.cons "label" (.vstr col.label) (.cons "value" value .nil))))
    .vobj (.cons "title" titleVal (.cons "fields" (.varr (JSItems.ofList items)) .nil))

/-- Build `_cachedRelationshipFieldMap` from the sample record's dotted
keys (`parts[0]`/`parts[1]` of the split). -/
def flattenMappingsFor (sample : Record) : List FlattenMapping :=
  (sample.map Prod.fst).filterMap (fun key =>
    if strContainsChar key '.' then
      match splitOnChar '.' key with
      | a :: b :: _ => some ⟨key, a, b, getFlattenedFieldName key⟩
      | _ => none
    else none)

/-- Apply the cached relationship-field mappings to one record: copy the
nested value to the flattened key when the container is truthy and the
nested property is defined, else set the flattened key to `null`. -/
def applyFlattenMappings (mappings : List FlattenMapping) (r : Record) : Record :=
  mappings.foldl (fun acc m =>
    match getProp acc m.relationshipName with
    | some container =>
      if jsTruthy container then
        match container with
        | .vobj fs =>
          match fs.lookup m.fieldName with
          | some v => setProp acc m.flattenedFieldName v
          | none => setProp acc m.flattenedFieldName .vnull
        | _ => setProp acc m.flattenedFieldName .vnull
      else setProp acc m.flattenedFieldName .vnull
    | none => setProp acc m.flattenedFieldName .vnull) r

/-- Source `processARLRecords(records)` (with the per-record
`flattenRelationshipFieldsForARL` calls): format date/datetime column
values, attach the record URL when linking is on, flatten relationship
fields using the map cached from the first record, and attach card data
in cards mode.  Returns the processed records and the (possibly freshly
built) relationship-field map cache. -/
def processARLRecords (cfg : Cfg) (env : FetchEnv) (cols : List Column)
    (records : List Record) (cache : Option (List FlattenMapping)) :
    List Record × Option (List FlattenMapping) :=
  let sample := records.headD []
  let cacheOut :=
    match cache with
    | some m => some m
    | none => some (flattenMappingsFor sample)
  let mappings := cacheOut.getD []
  let out := records.map (fun record =>
    let p0 := cols.foldl (fun acc col =>
      let fieldName := resolveColFieldNameARL cols col
      if col.isDateTime ∧ jsTruthy (jsGetD acc fieldName) then
        setProp acc fieldName (.vstr (env.fmtDateTime (jsToString (jsGetD acc fieldName))))
      else if col.isDate ∧ jsTruthy (jsGetD acc fieldName) then
        setProp acc fieldName (.vstr (env.fmtDate (jsToString (jsGetD acc fieldName))))
      else acc) record
    let p1 :=
      if cfg.enableRecordLinking ∧ cfg.recordPageUrl ≠ "" ∧ jsTruthy (jsGetD record "Id") then
        setProp p0 "recordUrl" (env.buildUrlFromId (jsGetD record "Id"))
      else p0
    let p2 := applyFlattenMappings mappings p1
    if cfg.displayMode = "cards" then
      setProp p2 "cardData" (buildCardData cols p2)
    else p2)
  (out, cacheOut)

-- ===== MODE LOADERS AND LOAD ORCHESTRATION =====

/-- Source `loadArticles()`: a missing record id throws; otherwise the
article fetch outcome is applied (errors are logged and rethrown).  On
success: the single Title column (URL-typed when linking is configured),
the transformed article records, pagination reset, and the displayed
slice recomputed.  The second component counts remote data-fetch
invocations. -/
def loadArticles (cfg : Cfg) (env : FetchEnv) (s : CState) :
    (Except ErrorPayload CState) × Nat :=
  if cfg.currentRecordId = "" then
    (.error { message := some "Record ID is required for Knowledge Articles" }, 0)
  else
    match env.articlesResp with
    | .error e => (.error e, 1)
    | .ok articles =>
      let linking := cfg.enableRecordLinking ∧ cfg.recordPageUrl ≠ ""
      let cols : List Column := [{
        label := "Title"
        fieldName := if linking then "recordUrl" else "title"
        ctype := if linking then "url" else "text"
        typeAttrLabelField := if linking then some "title" else none
        sortable := ¬ cfg.columnSortingDisabled
        wrapText := true }]
      let recs := articles.map (fun a =>
        let base : Record :=
          [("Id", .vstr a.id), ("title", .vstr a.title), ("urlName", .vstr a.urlName)]
        let base :=
          if linking then base ++ [("recordUrl", env.articleUrlFor a.urlName a.id)]
          else base
        if cfg.displayMode = "cards" then
          setProp base "cardData" (buildCardData cols base)
        else base)
      let s1 := { s with columns := cols, allRecords := recs, currentOffset := 0 }
      (.ok (updateDisplayedRecords cfg.pageSize s1), 1)

/-- Source `loadFiles()`: a missing record id throws; otherwise the files
fetch outcome is applied (errors rethrown).  On success: the fixed
four-column layout, the file records stored directly, pagination reset,
displayed slice recomputed. -/
def loadFiles (cfg : Cfg) (env : FetchEnv) (s : CState) :
    (Except ErrorPayload CState) × Nat :=
  if cfg.currentRecordId = "" then
    (.error { message := some "Record ID is required for Files" }, 0)
  else
    match env.filesResp with
    | .error e => (.error e, 1)
    | .ok files =>
      let sortableFlag := ¬ cfg.columnSortingDisabled
      let cols : List Column := [
        { label := "Name", fieldName := "title", ctype := "button",
          typeAttrLabelField := some "title", sortable := sortableFlag, wrapText := true },
        { label := "Type", fieldName := "fileExtension", ctype := "text",
          fixedWidth := some 80, sortable := sortableFlag },
        { label := "Size", fieldName := "formattedSize", ctype := "text",
          fixedWidth := some 100, sortable := sortableFlag },
        { label := "Modified", fieldName := "createdDate", ctype := "date",
          fixedWidth := some 180, sortable := sortableFlag }]
      let s1 := { s with columns := cols, allRecords := files, currentOffset := 0 }
      (.ok (updateDisplayedRecords cfg.pageSize s1), 1)

/-- Source `loadRelatedActivity(recordId)` (email mode): never throws.  A
falsy record id only toasts.  Otherwise the offset is reset before the
fetch; a rejected fetch is caught internally and surfaced as an error
toast only — the error state is not entered and the held records are not
cleared.  On success the response records gain `url` and `statusText`
fields, the email columns are installed, and the displayed slice is the
whole record set. -/
def loadRelatedActivity (env : FetchEnv) (recordId : String) (s : CState) :
    CState × Nat :=
  if recordId = "" then
    ({ s with toasts := s.toasts ++ [("Error", "No record ID provided", "error")] }, 0)
  else
    let s0 := { s with currentOffset := 0 }
    match env.emailsResp with
    | .error e =>
      ({ s0 with toasts := s0.toasts ++
          [("Error", "Failed to load related email activity: " ++ extractErrorMessage e,
            "error")] }, 1)
    | .ok response =>
      let modified := response.map (fun rec =>
        let rec1 := setProp rec "url"
          (.vstr ("/internalsupportlwr/emailmessage/" ++ jsToString (jsGetD rec "Id")))
        let statusText :=
          if getProp rec1 "Status" = some (.vnum 0) ∨ getProp rec1 "Status" = some (.vnum 1)
          then "Read"
          else if getProp rec1 "Status" = some (.vnum 2) then "Replied"
          else "Sent"
        setProp rec1 "statusText" (.vstr statusText))
      let cols : List Column := [
        { label := "Subject", fieldName := "url", ctype := "url",
          typeAttrLabelField := some "Subject" },
        { label := "Status", fieldName := "statusText" },
        { label := "Opened?", fieldName := "IsOpened", ctype := "boolean" },
        { label := "Message Date", fieldName := "MessageDate", ctype := "date" }]
      let s1 := { s0 with columns := cols, allRecords := modified }
      ({ s1 with hasData := modified.length > 0, displayedRecords := modified }, 1)

/-- Source `loadDataWithARL()`: throws when the related-list name or the
detected object type is missing, propagates a rejected fetch, and throws
when the response carries no field information.  On success: delete
permission is checked (`checkDeletePermission()`, false on its guards or
on a rejected check), columns are built, the records processed, the
server-more flag stored, pagination reset, the displayed slice
recomputed, and `hasData` set from the full record count. -/
def loadDataWithARL (cfg : Cfg) (env : FetchEnv) (s : CState) :
    (Except ErrorPayload CState) × Nat :=
  if cfg.relatedListName = "" ∨ cfg.detectedObjectType = "" then
    (.error { message := some "Related List Name and Object Type are required for ARL mode" }, 0)
  else
    match env.arlResp with
    | .error e => (.error e, 1)
    | .ok response =>
      match response.fields with
      | none =>
        (.error { message := some "No field information returned from Related List API" }, 1)
      | some fields =>
        let canDel :=
          if cfg.detectedObjectType = "" ∨ ¬ cfg.enableRecordDeletion then false
          else env.canDeleteResp
        let s0 := { s with canDeleteRecords := canDel }
        let cols := buildColumnsFromARL cfg canDel fields
        let pr := processARLRecords cfg env cols response.records s0.cachedRelationshipFieldMap
        let s1 := { s0 with
          columns := cols
          allRecords := pr.1
          cachedRelationshipFieldMap := pr.2
          serverHasMoreRecords := response.hasMoreRecords
          currentOffset := 0 }
        let s2 := updateDisplayedRecords cfg.pageSize s1
        (.ok { s2 with hasData := pr.1.length > 0 }, 1)

/-- Source `loadData()`: an invalid configuration clears the data without
fetching.  Otherwise the loading flag and error state are reset, the
mode-specific loader runs (email routing uses the hard-coded activity
record id, and never throws), and on the success path the applied data
and UI signatures are recorded.  A thrown loader error is caught: the
error state receives the best-effort message and the data is cleared.
The loading flag is always dropped.  The second component counts remote
data-fetch invocations (the auxiliary `canDeleteObject` permission check
is not a data fetch). -/
def loadData (cfg : Cfg) (env : FetchEnv) (s : CState) : CState × Nat :=
  if ¬ hasValidConfiguration cfg then (clearData s, 0)
  else
    let sL := { s with isLoading := true, error := none }
    let routed : (Except ErrorPayload CState) × Nat :=
      if cfg.relatedListType = "articles" then loadArticles cfg env sL
      else if cfg.relatedListType = "files" then loadFiles cfg env sL
      else if cfg.relatedListType = "emails" then
        let r := loadRelatedActivity env "08pEi000001JIofIAG" sL
        (.ok r.1, r.2)
      else loadDataWithARL cfg env sL
    match routed with
    | (.ok sOk, n) =>
      ({ sOk with
          lastDataSignature := computeDataSignature cfg
          lastUISignature := computeUiSignature cfg (relatedListLabel cfg sOk)
          isLoading := false }, n)
    | (.error e, n) =>
      let sErr := clearData { sL with error := some (extractErrorMessage e) }
      ({ sErr with isLoading := false }, n)

/-- Source `rebuildColumnsOnly()`: despite its name and logging, the ARL
path immediately delegates to `loadData()` (the source comments read
"For now, just reprocess existing records" and "ARL column rebuild
requires data reload"). -/
def rebuildColumnsOnly (cfg : Cfg) (env : FetchEnv) (s : CState) : CState × Nat :=
  if ¬ s.hasData ∨ s.allRecords.length = 0 then (s, 0)
  else loadData cfg env s

/-- Source `renderedCallback()` change-detection routing: nothing before
initialization or while a manual refresh is in flight; reload when the
data signature differs from the last applied one; otherwise rebuild
columns when the UI signature differs and data is present. -/
def renderedCallback (cfg : Cfg) (env : FetchEnv) (s : CState) : CState × Nat :=
  if ¬ s.isInitialized then (s, 0)
  else if s.isRefreshing then (s, 0)
  else if computeDataSignature cfg ≠ s.lastDataSignature then loadData cfg env s
  else if computeUiSignature cfg (relatedListLabel cfg s) ≠ s.lastUISignature ∧ s.hasData then
    rebuildColumnsOnly cfg env s
  else (s, 0)

-- ===== CONCRETE SCENARIO DATA =====

/-- Demo record with id `one`. -/
def recOne : Record := [("Id", .vstr "one"), ("Name", .vstr "First")]

/-- Demo record with id `two`. -/
def recTwo : Record := [("Id", .vstr "two"), ("Name", .vstr "Second")]

/-- Sort-test record `{a:3}`. -/
def recA3 : Record := [("a", .vnum 3)]

/-- Sort-test record `{a:1}`. -/
def recA1 : Record := [("a", .vnum 1)]

/-- Sort-test record `{a:null}`. -/
def recANull : Record := [("a", .vnull)]

/-- Sort-test record `{a:2}`. -/
def recA2 : Record := [("a", .vnum 2)]

/-- `n` demo records with numeric ids. -/
def demoRecords (n : Nat) : List Record :=
  (List.range n).map (fun i => [("Id", JSVal.vnum i)])

/-- A freshly loaded pagination state: 20 records fetched, server-more
flag false, first slice displayed at page size 6. -/
def pagState0 : CState := updateDisplayedRecords 6 { allRecords := demoRecords 20 }

/-- `k` successive load-more operations from `pagState0` at page size 6. -/
def pagAdvance : Nat → CState
  | 0 => pagState0
  | k + 1 => handleViewMore 6 (pagAdvance k)

/-- A valid standard-mode (ARL) configuration. -/
def arlDemoCfg : Cfg :=
  { relatedListType := "standard"
    currentRecordId := "001x"
    relatedListName := "Contacts"
    detectedObjectType := "Account" }

/-- `arlDemoCfg` after a display-only change (icon). -/
def displayOnlyChangedCfg : Cfg := { arlDemoCfg with relatedListIcon := "standard:account" }

/-- `arlDemoCfg` after a data-affecting change (record id). -/
def dataChangedCfg : Cfg := { arlDemoCfg with currentRecordId := "002y" }

/-- Field metadata of the demo ARL response. -/
def demoFieldInfo : FieldInfo := { label := "Name", apiName := "Name", ftype := "STRING" }

/-- Demo ARL fetch succeeding with `recOne`. -/
def arlDemoEnv : FetchEnv :=
  { arlResp := .ok { fields := some [demoFieldInfo], records := [recOne] } }

/-- The response of a fetch issued under the earlier signature S1 that
settles second (claim C2): it carries `recOne`. -/
def staleEnv : FetchEnv :=
  { arlResp := .ok { fields := some [demoFieldInfo], records := [recOne] } }

/-- The response of the fetch issued under the current signature S2 that
settles first (claim C2): it carries `recTwo`. -/
def freshEnv : FetchEnv :=
  { arlResp := .ok { fields := some [demoFieldInfo], records := [recTwo] } }

/-- Component state right after `connectedCallback` set `isInitialized`. -/
def initState : CState := { isInitialized := true }

/-- State after a successful load under `arlDemoCfg`. -/
def loadedState : CState := (loadData arlDemoCfg arlDemoEnv initState).1

/-- A state already holding and displaying `recOne` (used to observe
whether failing fetches clear it). -/
def preloadedState : CState :=
  { isInitialized := true
    hasData := true
    allRecords := [recOne]
    displayedRecords := [recOne] }

/-- A valid email-mode configuration. -/
def emailDemoCfg : Cfg := { relatedListType := "emails", currentRecordId := "500x" }

/-- Error payload of the failing email fetch. -/
def emailErrPayload : ErrorPayload := { bodyMessage := some "boom" }

/-- Environment whose email fetch rejects. -/
def emailErrEnv : FetchEnv := { emailsResp := .error emailErrPayload }

/-- Error payload of the failing ARL fetch. -/
def arlErrPayload : ErrorPayload := { bodyMessage := some "no access" }

/-- Environment whose ARL fetch rejects. -/
def arlErrEnv : FetchEnv := { arlResp := .error arlErrPayload }

/-- A parser accepting only the empty-object source text (stand-in for
`JSON.parse` in the configuration-cache scenarios). -/
def demoParse : String → Option Record :=
  fun s => if s = "\x7b\x7d" then some [] else none

/-- A state in which all fetched records are shown-or-showable and the
server reported more records beyond the fetch cap. -/
def viewAllDemoState : CState :=
  { allRecords := [recOne]
    displayedRecords := [recOne]
    serverHasMoreRecords := true
    hasMoreRecords := true }

/-- A state holding two displayed records, for the delete scenarios. -/
def deleteDemoState : CState :=
  { allRecords := [recOne, recTwo]
    displayedRecords := [recOne, recTwo]
    hasData := true }

-- ===== HELPER LEMMAS =====

theorem sortInsert_perm (le : α → α → Bool) (x : α) (l : List α) :
    (sortInsert le x l).Perm (x :: l) := by
  induction l with
  | nil => exact List.Perm.refl _
  | cons y ys ih =>
    simp only [sortInsert]
    split
    · exact List.Perm.refl _
    · exact (ih.cons y).trans (List.Perm.swap x y ys)

theorem stableSort_perm (le : α → α → Bool) (l : List α) :
    (stableSort le l).Perm l := by
  induction l with
  | nil => exact List.Perm.refl _
  | cons x xs ih => exact (sortInsert_perm le x _).trans (ih.cons x)

theorem sortData_perm (cols : List Column) (records : List Record)
    (fieldName direction : String) :
    (sortData cols records fieldName direction).Perm records := by
  unfold sortData
  refine ((stableSort_perm _ _).map _).trans ?_
  rw [List.map_map]
  rw [show ((fun p : Record × JSVal => p.1) ∘
        fun r => (r, normalizeSortValue (getFieldValue cols r fieldName))) = id from rfl]
  rw [List.map_id]

theorem extractKeysCounted_eq (cols : List Column) (fieldName : String)
    (records : List Record) :
    extractKeysCounted cols fieldName records =
      (records.map (fun r => (r, normalizeSortValue (getFieldValue cols r fieldName))),
       records.length) := by
  induction records with
  | nil => rfl
  | cons r rs ih => simp [extractKeysCounted, ih]

theorem sortData_length (cols : List Column) (records : List Record)
    (fieldName direction : String) :
    (sortData cols records fieldName direction).length = records.length :=
  (sortData_perm cols records fieldName direction).length_eq

theorem filter_not_eq_eraseP_of_countP_le_one (p : α → Bool) (l : List α)
    (h : l.countP p ≤ 1) : l.filter (fun a => !(p a)) = l.eraseP p := by
  induction l with
  | nil => rfl
  | cons a l ih =>
    by_cases hp : p a
    · have hzero : l.countP p = 0 := by
        have := List.countP_cons_of_pos p l hp
        omega
      have hall : ∀ x ∈ l, ¬ p x = true := by
        intro x hx
        exact List.countP_eq_zero.mp hzero x hx
      simp only [List.filter_cons, List.eraseP_cons, hp]
      simp only [Bool.not_true, if_false]
      exact List.filter_eq_self.mpr (fun x hx => by simp [hall x hx])
    · have hcount : l.countP p ≤ 1 := by
        have := List.countP_cons_of_neg p l (by simpa using hp)
        omega
      simp only [List.filter_cons, List.eraseP_cons, eq_self_iff_true]
      simp [hp, ih hcount]

-- ===== CLAIM THEOREMS =====

/-- C5: Sort null ordering.  Sorting `[{a:3},{a:1},{a:null},{a:2}]` by
field `a` ascending yields `[{a:null},{a:1},{a:2},{a:3}]` and descending
yields `[{a:3},{a:2},{a:1},{a:null}]`: null keys come first in ascending
order and last in descending order. -/
theorem sortData_null_ordering_spec :
    sortData [] [recA3, recA1, recANull, recA2] "a" "asc" =
      [recANull, recA1, recA2, recA3] ∧
    sortData [] [recA3, recA1, recANull, recA2] "a" "desc" =
      [recA3, recA2, recA1, recANull] := by
  constructor <;> decide

/-- C6: Sort single-extraction discipline.  One sort call extracts the
field value exactly once per record (N extractions for N records,
independent of the number of comparisons), the keys are normalised at
extraction time into the parallel `(record, key)` array, and the
instrumented sort computes exactly what `sortData` computes. -/
theorem sortData_single_extraction (cols : List Column) (records : List Record)
    (fieldName direction : String) :
    (sortDataCounted cols records fieldName direction).2 = records.length ∧
    (sortDataCounted cols records fieldName direction).1 =
      sortData cols records fieldName direction ∧
    (extractKeysCounted cols fieldName records).1 =
      records.map (fun r => (r, normalizeSortValue (getFieldValue cols r fieldName))) := by
  refine ⟨?_, ?_, ?_⟩ <;>
    simp [sortDataCounted, sortData, extractKeysCounted_eq]

/-- C7: Pagination advance sequence.  From 20 fetched records with the
server-more flag false and page size 6, successive load-more operations
display 6, 12, 18, 20, 20 records; `hasMoreRecords` stays true exactly
until all 20 are displayed, and the advance taken in the complete state
leaves the displayed slice unchanged (an error-free no-op). -/
theorem pagination_advance_sequence :
    (pagAdvance 0).displayedRecords.length = 6 ∧ (pagAdvance 0).hasMoreRecords = true ∧
    (pagAdvance 1).displayedRecords.length = 12 ∧ (pagAdvance 1).hasMoreRecords = true ∧
    (pagAdvance 2).displayedRecords.length = 18 ∧ (pagAdvance 2).hasMoreRecords = true ∧
    (pagAdvance 3).displayedRecords.length = 20 ∧ (pagAdvance 3).hasMoreRecords = false ∧
    (pagAdvance 4).displayedRecords.length = 20 ∧ (pagAdvance 4).hasMoreRecords = false ∧
    (pagAdvance 4).displayedRecords = (pagAdvance 3).displayedRecords := by
  decide

/-- C10: Sort is a pure permutation of the held record set — for every
column set, field name and direction the sorted list is a reordering of
the input with no record added, removed, duplicated or mutated (this
holds regardless of whether key extraction found a value or yielded
null) — and a sort through the handler preserves the displayed count
whenever the current displayed count is at least `min pageSize total`
(which every slice the component computes satisfies) and at most the
total. -/
theorem sort_permutation_and_displayed_count :
    (∀ (cols : List Column) (records : List Record) (fieldName direction : String),
      (sortData cols records fieldName direction).Perm records) ∧
    (∀ (pageSize : Nat) (s : CState) (fieldName direction : String),
      s.displayedRecords.length ≤ s.allRecords.length →
      min pageSize s.allRecords.length ≤ s.displayedRecords.length →
      (handleSort pageSize s fieldName direction).displayedRecords.length =
        s.displayedRecords.length) := by
  constructor
  · exact sortData_perm
  · intro pageSize s fieldName direction hle hmin
    simp only [handleSort, updateDisplayedRecords, List.length_take, sortData_length]
    omega

/-- C10 witness: the permutation fact at the spec's sort-test input and
the displayed-count preservation at a concrete nine-record state. -/
theorem sort_permutation_and_displayed_count_witness :
    (sortData [] [recA3, recA1, recANull, recA2] "a" "asc").Perm
      [recA3, recA1, recANull, recA2] ∧
    (handleSort 6 { allRecords := demoRecords 9, displayedRecords := demoRecords 6 }
        "Id" "desc").displayedRecords.length = 6 := by
  constructor
  · exact sort_permutation_and_displayed_count.1 [] [recA3, recA1, recANull, recA2] "a" "asc"
  · exact sort_permutation_and_displayed_count.2 6
      { allRecords := demoRecords 9, displayedRecords := demoRecords 6 } "Id" "desc"
      (by decide) (by decide)

/-- C3 counterexample: with one fetched record fully revealed-or-shown
and the server-more flag set, the local view-all reveal leaves
`displayed = total` and the server-more flag intact, yet forces
`hasMoreRecords` to false — the claimed iff (`hasMore ↔ displayed < total
∨ server-more`) demands true here, so the claim as stated is false. -/
theorem viewAll_clears_hasMore_counterexample :
    (handleViewAll "" viewAllDemoState).displayedRecords.length =
      (handleViewAll "" viewAllDemoState).allRecords.length ∧
    (handleViewAll "" viewAllDemoState).serverHasMoreRecords = true ∧
    (handleViewAll "" viewAllDemoState).hasMoreRecords = false := by
  decide

/-- C3 (amended): after every operation that recomputes the displayed
slice (record-set replacement, load-more advance, sort, delete — all of
which run `updateDisplayedRecords`), `hasMoreRecords` is true iff the
displayed count is less than the total fetched count or the server-more
flag is set; the local view-all reveal instead sets `displayed = total`
and forces `hasMoreRecords` to false unconditionally, while leaving the
stored server-more field itself uncleared. -/
theorem hasMore_invariant :
    (∀ (pageSize : Nat) (s : CState),
      (updateDisplayedRecords pageSize s).hasMoreRecords = true ↔
        ((updateDisplayedRecords pageSize s).displayedRecords.length <
           (updateDisplayedRecords pageSize s).allRecords.length ∨
         (updateDisplayedRecords pageSize s).serverHasMoreRecords = true)) ∧
    (∀ s : CState, 0 < s.allRecords.length →
      (handleViewAll "" s).displayedRecords.length =
        (handleViewAll "" s).allRecords.length ∧
      (handleViewAll "" s).hasMoreRecords = false ∧
      (handleViewAll "" s).serverHasMoreRecords = s.serverHasMoreRecords) := by
  constructor
  · intro pageSize s
    have hb : (updateDisplayedRecords pageSize s).hasMoreRecords =
        (decide (s.currentOffset + pageSize < s.allRecords.length) ||
         s.serverHasMoreRecords) := by
      simp only [updateDisplayedRecords]
      by_cases h : s.currentOffset + pageSize < s.allRecords.length
      · simp [h]
      · cases hsm : s.serverHasMoreRecords <;> simp [h, hsm]
    have h1 : (updateDisplayedRecords pageSize s).displayedRecords.length =
        min (s.currentOffset + pageSize) s.allRecords.length := by
      simp [updateDisplayedRecords, List.length_take]
    have h2 : (updateDisplayedRecords pageSize s).allRecords = s.allRecords := rfl
    have h3 : (updateDisplayedRecords pageSize s).serverHasMoreRecords =
        s.serverHasMoreRecords := rfl
    rw [hb, h1, h2, h3, Bool.or_eq_true, decide_eq_true_eq]
    constructor
    · rintro (h | h)
      · exact Or.inl (by omega)
      · exact Or.inr h
    · rintro (h | h)
      · exact Or.inl (by omega)
      · exact Or.inr h
  · intro s h
    simp [handleViewAll, h]

/-- C3 witness: the amended invariant applied at page size 6 on the
view-all demo state and to the view-all reveal on that state. -/
theorem hasMore_invariant_witness :
    ((updateDisplayedRecords 6 viewAllDemoState).hasMoreRecords = true ↔
      ((updateDisplayedRecords 6 viewAllDemoState).displayedRecords.length <
         (updateDisplayedRecords 6 viewAllDemoState).allRecords.length ∨
       (updateDisplayedRecords 6 viewAllDemoState).serverHasMoreRecords = true)) ∧
    ((handleViewAll "" viewAllDemoState).displayedRecords.length =
       (handleViewAll "" viewAllDemoState).allRecords.length ∧
     (handleViewAll "" viewAllDemoState).hasMoreRecords = false ∧
     (handleViewAll "" viewAllDemoState).serverHasMoreRecords =
       viewAllDemoState.serverHasMoreRecords) :=
  ⟨hasMore_invariant.1 6 viewAllDemoState,
   hasMore_invariant.2 viewAllDemoState (by decide)⟩

/-- C4 counterexample: calling the configuration accessor twice in a row
with the identical malformed raw string `oops` re-invokes the parser both
times (the memo key is only updated on successful parses), refuting the
claim that an identical raw string never re-invokes the parser. -/
theorem configCache_malformed_reparse_counterexample :
    (configObjStep demoParse "oops" {}).2.2 = true ∧
    (configObjStep demoParse "oops" (configObjStep demoParse "oops" {}).2.1).2.2 = true := by
  decide

/-- C4 (amended): the configuration cache memoises on the last
successfully parsed raw string: a raw equal to it returns the cached
object without invoking the parser; any raw differing from it invokes
the parser; and a failed parse leaves the memo key unchanged, so an
identical malformed raw string re-invokes the parser on the immediately
following call as well. -/
theorem configCache_memoization (parseJson : String → Option Record)
    (raw : String) (st : ConfigCacheState) :
    (raw = st.lastConfigString →
      configObjStep parseJson raw st = (st.cachedConfigObj, st, false)) ∧
    (raw ≠ st.lastConfigString →
      (configObjStep parseJson raw st).2.2 = true) ∧
    (raw ≠ st.lastConfigString → parseJson raw = none →
      (configObjStep parseJson raw st).2.1.lastConfigString = st.lastConfigString ∧
      (configObjStep parseJson raw (configObjStep parseJson raw st).2.1).2.2 = true) := by
  refine ⟨?_, ?_, ?_⟩
  · intro h
    simp [configObjStep, h]
  · intro h
    cases hp : parseJson raw <;> simp [configObjStep, h, hp]
  · intro h hfail
    simp [configObjStep, h, hfail]

/-- C4 witness: the amended memoization facts at concrete inputs — no
reparse when the raw equals the memo key, a reparse on a fresh raw, and
the double reparse of a malformed raw. -/
theorem configCache_memoization_witness :
    (configObjStep demoParse "abc"
      { cachedConfigObj := some [], lastConfigString := "abc" } =
        (some [], { cachedConfigObj := some [], lastConfigString := "abc" }, false)) ∧
    (configObjStep demoParse "oops" {}).2.2 = true ∧
    ((configObjStep demoParse "nope"
        { cachedConfigObj := some [], lastConfigString := "abc" }).2.1.lastConfigString =
      "abc" ∧
     (configObjStep demoParse "nope"
        (configObjStep demoParse "nope"
          { cachedConfigObj := some [], lastConfigString := "abc" }).2.1).2.2 = true) :=
  ⟨(configCache_memoization demoParse "abc"
      { cachedConfigObj := some [], lastConfigString := "abc" }).1 rfl,
   (configCache_memoization demoParse "oops" {}).2.1 (by decide),
   (configCache_memoization demoParse "nope"
      { cachedConfigObj := some [], lastConfigString := "abc" }).2.2 (by decide) rfl⟩

/-- C9: Delete atomicity.  For a truthy record id: when the remote delete
rejects, the fetched record set and the displayed slice are left exactly
unchanged and the failure surfaces only as a transient error toast; when
it succeeds, the records whose id equals the argument are removed
(exactly one record when the id matches at most one — the filter equals
the single-erase), the displayed slice is recomputed from the new record
set, and a success toast is dispatched. -/
theorem delete_atomicity (pageSize : Nat) (rid : JSVal) (e : ErrorPayload)
    (s : CState) (htruthy : jsTruthy rid = true) :
    ((handleDeleteRecord pageSize rid (.error e) s).allRecords = s.allRecords ∧
     (handleDeleteRecord pageSize rid (.error e) s).displayedRecords = s.displayedRecords ∧
     (handleDeleteRecord pageSize rid (.error e) s).toasts =
       s.toasts ++ [("Error", "Failed to delete record: " ++ extractErrorMessage e, "error")]) ∧
    ((handleDeleteRecord pageSize rid (.ok ()) s).allRecords =
       s.allRecords.filter (fun r => ¬ getProp r "Id" = some rid) ∧
     (handleDeleteRecord pageSize rid (.ok ()) s).displayedRecords =
       (s.allRecords.filter (fun r => ¬ getProp r "Id" = some rid)).take
         (s.currentOffset + pageSize) ∧
     (handleDeleteRecord pageSize rid (.ok ()) s).toasts =
       s.toasts ++ [("Success", "Record deleted successfully", "success")]) ∧
    (s.allRecords.countP (fun r => getProp r "Id" = some rid) ≤ 1 →
      (handleDeleteRecord pageSize rid (.ok ()) s).allRecords =
        s.allRecords.eraseP (fun r => getProp r "Id" = some rid)) := by
  refine ⟨?_, ?_, ?_⟩
  · simp [handleDeleteRecord, htruthy]
  · simp [handleDeleteRecord, htruthy, updateDisplayedRecords]
  · intro hcount
    have hfe := filter_not_eq_eraseP_of_countP_le_one
      (fun r => decide (getProp r "Id" = some rid)) s.allRecords (by simpa using hcount)
    calc (handleDeleteRecord pageSize rid (.ok ()) s).allRecords
        = s.allRecords.filter (fun r => ¬ getProp r "Id" = some rid) := by
          simp [handleDeleteRecord, htruthy, updateDisplayedRecords]
      _ = s.allRecords.eraseP (fun r => getProp r "Id" = some rid) := by
          simpa [decide_not] using hfe

/-- C9 witness: delete atomicity at page size 6 on the two-record demo
state with the id `one`. -/
theorem delete_atomicity_witness :
    ((handleDeleteRecord 6 (.vstr "one") (.error {}) deleteDemoState).allRecords =
       deleteDemoState.allRecords ∧
     (handleDeleteRecord 6 (.vstr "one") (.error {}) deleteDemoState).displayedRecords =
       deleteDemoState.displayedRecords ∧
     (handleDeleteRecord 6 (.vstr "one") (.error {}) deleteDemoState).toasts =
       deleteDemoState.toasts ++
         [("Error", "Failed to delete record: " ++ extractErrorMessage {}, "error")]) ∧
    ((handleDeleteRecord 6 (.vstr "one") (.ok ()) deleteDemoState).allRecords =
       deleteDemoState.allRecords.filter
         (fun r => ¬ getProp r "Id" = some (.vstr "one")) ∧
     (handleDeleteRecord 6 (.vstr "one") (.ok ()) deleteDemoState).displayedRecords =
       (deleteDemoState.allRecords.filter
         (fun r => ¬ getProp r "Id" = some (.vstr "one"))).take
           (deleteDemoState.currentOffset + 6) ∧
     (handleDeleteRecord 6 (.vstr "one") (.ok ()) deleteDemoState).toasts =
       deleteDemoState.toasts ++ [("Success", "Record deleted successfully", "success")]) ∧
    (deleteDemoState.allRecords.countP
        (fun r => getProp r "Id" = some (.vstr "one")) ≤ 1 →
      (handleDeleteRecord 6 (.vstr "one") (.ok ()) deleteDemoState).allRecords =
        deleteDemoState.allRecords.eraseP
          (fun r => getProp r "Id" = some (.vstr "one"))) :=
  delete_atomicity 6 (.vstr "one") {} deleteDemoState (by decide)

/-- C1: Action routing, evaluated at the failing input.  After a
successful load under `arlDemoCfg`, a display-only configuration change
(icon only) leaves the data signature equal to the last applied one and
changes the UI signature — yet the render-cycle routing issues one remote
data fetch (`rebuildColumnsOnly` delegates straight to `loadData`),
where the claim requires zero.  A data-affecting change issues exactly
one fetch, and an unchanged configuration issues none. -/
theorem renderedCallback_routing_at_failing_input :
    computeDataSignature displayOnlyChangedCfg = loadedState.lastDataSignature ∧
    computeUiSignature displayOnlyChangedCfg
        (relatedListLabel displayOnlyChangedCfg loadedState) ≠
      loadedState.lastUISignature ∧
    loadedState.hasData = true ∧
    (renderedCallback displayOnlyChangedCfg arlDemoEnv loadedState).2 = 1 ∧
    computeDataSignature dataChangedCfg ≠ loadedState.lastDataSignature ∧
    (renderedCallback dataChangedCfg arlDemoEnv loadedState).2 = 1 ∧
    (renderedCallback arlDemoCfg arlDemoEnv loadedState).2 = 0 := by
  decide

/-- C2 counterexample: the fetch issued under the earlier signature S1
(carrying `recOne`) settles after the fetch issued under the current
signature S2 (carrying `recTwo`); the record set afterwards is the stale
S1 result, not the S2 result the claim requires.  Each settle event is a
`loadData` run under the completion-time configuration: the pre-await
statements (`isLoading = true`, `error = null`, validity check) are
idempotent, so the sequential composition computes the interleaved
execution issue(S1); issue(S2); settle(S2); settle(S1). -/
theorem stale_fetch_applied_counterexample :
    (loadData arlDemoCfg freshEnv initState).1.allRecords = [recTwo] ∧
    (loadData arlDemoCfg staleEnv
        (loadData arlDemoCfg freshEnv initState).1).1.allRecords = [recOne] ∧
    ¬ (loadData arlDemoCfg staleEnv
        (loadData arlDemoCfg freshEnv initState).1).1.allRecords = [recTwo] := by
  have hfresh : (loadData arlDemoCfg freshEnv initState).1.allRecords = [recTwo] := rfl
  have hstale : (loadData arlDemoCfg staleEnv
      (loadData arlDemoCfg freshEnv initState).1).1.allRecords = [recOne] := rfl
  refine ⟨hfresh, hstale, fun h => ?_⟩
  have hmix : ([recOne] : List Record) = [recTwo] := hstale.symm.trans h
  exact absurd hmix (by decide)

/-- C2 (amended): there is no staleness check — when a fetch settles, its
processed response unconditionally replaces the record set, so after the
stale S1 fetch settles last, the record set reflects the S1 response
(processed under the completion-time configuration), not the result of
the signature-current S2 fetch. -/
theorem last_settled_fetch_wins (cfg : Cfg) (envOfStale envOfCurrent : FetchEnv)
    (s : CState) (resp : ARLResponse) (fields : List FieldInfo)
    (hArt : cfg.relatedListType ≠ "articles") (hFil : cfg.relatedListType ≠ "files")
    (hEm : cfg.relatedListType ≠ "emails")
    (hValid : hasValidConfiguration cfg = true)
    (hResp : envOfStale.arlResp = .ok resp) (hFields : resp.fields = some fields) :
    (loadData cfg envOfStale (loadData cfg envOfCurrent s).1).1.allRecords =
      (processARLRecords cfg envOfStale
        (buildColumnsFromARL cfg
          (if cfg.detectedObjectType = "" ∨ ¬ cfg.enableRecordDeletion then false
           else envOfStale.canDeleteResp) fields)
        resp.records
        ((loadData cfg envOfCurrent s).1).cachedRelationshipFieldMap).1 := by
  have hCore : cfg.relatedListName ≠ "" ∧ cfg.currentRecordId ≠ "" ∧
      cfg.detectedObjectType ≠ "" := by
    simpa [hasValidConfiguration, hArt, hFil, hEm] using hValid
  generalize (loadData cfg envOfCurrent s).1 = sMid
  simp [loadData, loadDataWithARL, updateDisplayedRecords, hValid, hArt, hFil, hEm,
    hResp, hFields, hCore.1, hCore.2.2]

/-- C2 witness: the last-settled-wins equation instantiated at the demo
configuration and the two demo environments. -/
theorem last_settled_fetch_wins_witness :
    (loadData arlDemoCfg staleEnv (loadData arlDemoCfg freshEnv initState).1).1.allRecords =
      (processARLRecords arlDemoCfg staleEnv
        (buildColumnsFromARL arlDemoCfg
          (if arlDemoCfg.detectedObjectType = "" ∨ ¬ arlDemoCfg.enableRecordDeletion
           then false else staleEnv.canDeleteResp) [demoFieldInfo])
        [recOne]
        ((loadData arlDemoCfg freshEnv initState).1).cachedRelationshipFieldMap).1 :=
  last_settled_fetch_wins arlDemoCfg staleEnv freshEnv initState
    { fields := some [demoFieldInfo], records := [recOne] } [demoFieldInfo]
    (by decide) (by decide) (by decide) (by decide) rfl rfl

/-- C8 counterexample: in email mode a failing fetch leaves the error
state unset and the previously fetched record set still held and
displayed (only a toast is dispatched), where the claim requires a
user-visible error state and a cleared record set for every mode. -/
theorem email_fetch_error_counterexample :
    (loadData emailDemoCfg emailErrEnv preloadedState).1.error = none ∧
    (loadData emailDemoCfg emailErrEnv preloadedState).1.allRecords = [recOne] ∧
    (loadData emailDemoCfg emailErrEnv preloadedState).1.displayedRecords = [recOne] ∧
    ¬ (loadData emailDemoCfg emailErrEnv preloadedState).1.allRecords = [] ∧
    (loadData emailDemoCfg emailErrEnv preloadedState).1.toasts =
      [("Error", "Failed to load related email activity: boom", "error")] := by
  decide

/-- C8 (amended): for the standard/ARL, files and articles modes a failing
remote fetch sets the user-visible error state to the best-effort message
extracted from the payload and clears the fetched and displayed records;
in email mode the failure is surfaced only as a transient toast — the
error state stays unset and the held records remain displayed. -/
theorem fetch_error_handling :
    (∀ (cfg : Cfg) (env : FetchEnv) (s : CState) (e : ErrorPayload),
      cfg.relatedListType ≠ "articles" → cfg.relatedListType ≠ "files" →
      cfg.relatedListType ≠ "emails" → hasValidConfiguration cfg = true →
      env.arlResp = .error e →
      (loadData cfg env s).1.error = some (extractErrorMessage e) ∧
      (loadData cfg env s).1.allRecords = [] ∧
      (loadData cfg env s).1.displayedRecords = [] ∧
      (loadData cfg env s).1.hasData = false) ∧
    (∀ (cfg : Cfg) (env : FetchEnv) (s : CState) (e : ErrorPayload),
      cfg.relatedListType = "files" → hasValidConfiguration cfg = true →
      env.filesResp = .error e →
      (loadData cfg env s).1.error = some (extractErrorMessage e) ∧
      (loadData cfg env s).1.allRecords = [] ∧
      (loadData cfg env s).1.displayedRecords = [] ∧
      (loadData cfg env s).1.hasData = false) ∧
    (∀ (cfg : Cfg) (env : FetchEnv) (s : CState) (e : ErrorPayload),
      cfg.relatedListType = "articles" → hasValidConfiguration cfg = true →
      env.articlesResp = .error e →
      (loadData cfg env s).1.error = some (extractErrorMessage e) ∧
      (loadData cfg env s).1.allRecords = [] ∧
      (loadData cfg env s).1.displayedRecords = [] ∧
      (loadData cfg env s).1.hasData = false) ∧
    (∀ (cfg : Cfg) (env : FetchEnv) (s : CState) (e : ErrorPayload),
      cfg.relatedListType = "emails" → hasValidConfiguration cfg = true →
      env.emailsResp = .error e →
      (loadData cfg env s).1.error = none ∧
      (loadData cfg env s).1.allRecords = s.allRecords ∧
      (loadData cfg env s).1.displayedRecords = s.displayedRecords ∧
      (loadData cfg env s).1.toasts = s.toasts ++
        [("Error", "Failed to load related email activity: " ++ extractErrorMessage e,
          "error")]) := by
  refine ⟨?_, ?_, ?_, ?_⟩
  · intro cfg env s e hArt hFil hEm hValid hResp
    have hCore : cfg.relatedListName ≠ "" ∧ cfg.currentRecordId ≠ "" ∧
        cfg.detectedObjectType ≠ "" := by
      simpa [hasValidConfiguration, hArt, hFil, hEm] using hValid
    simp [loadData, loadDataWithARL, clearData, clearSort, hValid, hArt, hFil, hEm,
      hResp, hCore.1, hCore.2.2]
  · intro cfg env s e hTy hValid hResp
    have hRec : cfg.currentRecordId ≠ "" := by
      simpa [hasValidConfiguration, hTy] using hValid
    simp [loadData, loadFiles, clearData, clearSort, hValid, hTy, hResp, hRec]
  · intro cfg env s e hTy hValid hResp
    have hRec : cfg.currentRecordId ≠ "" := by
      simpa [hasValidConfiguration, hTy] using hValid
    simp [loadData, loadArticles, clearData, clearSort, hValid, hTy, hResp, hRec]
  · intro cfg env s e hTy hValid hResp
    simp [loadData, loadRelatedActivity, hValid, hTy, hResp]

/-- C8 witness: the amended error handling applied at the concrete
standard-mode and email-mode failing fetches. -/
theorem fetch_error_handling_witness :
    ((loadData arlDemoCfg arlErrEnv preloadedState).1.error =
       some (extractErrorMessage arlErrPayload) ∧
     (loadData arlDemoCfg arlErrEnv preloadedState).1.allRecords = [] ∧
     (loadData arlDemoCfg arlErrEnv preloadedState).1.displayedRecords = [] ∧
     (loadData arlDemoCfg arlErrEnv preloadedState).1.hasData = false) ∧
    ((loadData emailDemoCfg emailErrEnv preloadedState).1.error = none ∧
     (loadData emailDemoCfg emailErrEnv preloadedState).1.allRecords =
       preloadedState.allRecords ∧
     (loadData emailDemoCfg emailErrEnv preloadedState).1.displayedRecords =
       preloadedState.displayedRecords ∧
     (loadData emailDemoCfg emailErrEnv preloadedState).1.toasts =
       preloadedState.toasts ++
         [("Error",
           "Failed to load related email activity: " ++ extractErrorMessage emailErrPayload,
           "error")]) :=
  ⟨fetch_error_handling.1 arlDemoCfg arlErrEnv preloadedState arlErrPayload
     (by decide) (by decide) (by decide) (by decide) rfl,
   fetch_error_handling.2.2.2 emailDemoCfg emailErrEnv preloadedState emailErrPayload
     rfl (by decide) rfl⟩

end RelatedList
